import Mathlib

/-!
# FakeVolumeReader

A shallow embedding of `unpacker-test/cpp/fake_volume_reader.cc`, the test double
for the volume-reader interface, and the properties its methods satisfy.

Every method of the C++ class is embedded as a function from the object (and the
method's arguments) to the returned value and, for the non-`const` methods, the
object after the call.  `ARCHIVE_OK` is a constant of the archive library, which
is not part of this source file, so the two methods that return it take it as a
parameter and every theorem holds for each value of it.
-/

namespace VolumeReader

/-- Value of a `const void*` variable: `none` is the null pointer, `some a` is
the address `a`. -/
abbrev ConstVoidPtr := Option Nat

/-- The C library's `whence` value for a seek that is absolute from the start. -/
def SEEK_SET : Int := 0

/-- The fake reader object.  Its constructor `FakeVolumeReader() {}`
initialises no member and no method body reads or writes one, so the object
carries no data. -/
structure FakeVolumeReader where
  deriving DecidableEq, Repr

/-- What `Read` hands to its caller: the returned `ssize_t` and the content of
the caller's variable `*destination_buffer` after the call. -/
structure ReadResult where
  returned : Int
  destination_buffer : ConstVoidPtr
  deriving DecidableEq, Repr

/-- `int FakeVolumeReader::Open() { return ARCHIVE_OK; }` -/
def FakeVolumeReader.Open (ARCHIVE_OK : Int) (self : FakeVolumeReader) :
    Int × FakeVolumeReader :=
  (ARCHIVE_OK, self)

/-- `ssize_t FakeVolumeReader::Read(size_t bytes_to_read, const void** destination_buffer)`
with body `return 0;`.  The argument `destination_buffer` is the content of the
caller's variable that the C++ pointer argument points at; the body never
assigns through the pointer, so that content comes back as it went in. -/
def FakeVolumeReader.Read (self : FakeVolumeReader) (_bytes_to_read : Nat)
    (destination_buffer : ConstVoidPtr) : ReadResult × FakeVolumeReader :=
  (⟨0, destination_buffer⟩, self)

/-- `int64_t FakeVolumeReader::Skip(int64_t bytes_to_skip) { return 0; }` -/
def FakeVolumeReader.Skip (self : FakeVolumeReader) (_bytes_to_skip : Int) :
    Int × FakeVolumeReader :=
  (0, self)

/-- `int64_t FakeVolumeReader::Seek(int64_t offset, int whence) { return 0; }` -/
def FakeVolumeReader.Seek (self : FakeVolumeReader) (_offset : Int) (_whence : Int) :
    Int × FakeVolumeReader :=
  (0, self)

/-- `int64_t FakeVolumeReader::GetOffset() const { return 0; }`.  The method is
`const`: it returns a value and leaves the object alone. -/
def FakeVolumeReader.GetOffset (_self : FakeVolumeReader) : Int :=
  0

/-- `int FakeVolumeReader::Close() { return ARCHIVE_OK; }` -/
def FakeVolumeReader.Close (ARCHIVE_OK : Int) (self : FakeVolumeReader) :
    Int × FakeVolumeReader :=
  (ARCHIVE_OK, self)

/-! ## Sequences of calls -/

/-- One method call on the reader, with its arguments.  For `Read`, the second
argument is the content of the caller's `*destination_buffer` before the call. -/
inductive Call where
  | Open
  | Read (bytes_to_read : Nat) (destination_buffer : ConstVoidPtr)
  | Skip (bytes_to_skip : Int)
  | Seek (offset : Int) (whence : Int)
  | GetOffset
  | Close
  deriving DecidableEq, Repr

/-- What a call gives back, tagged by the C++ return type of the method. -/
inductive Ret where
  | int (value : Int)
  | ssize_t (value : Int) (destination_buffer : ConstVoidPtr)
  | int64_t (value : Int)
  deriving DecidableEq, Repr

/-- Perform one call: dispatch to the method and pair its result with the
object after the call. -/
def step (ARCHIVE_OK : Int) (self : FakeVolumeReader) : Call → Ret × FakeVolumeReader
  | .Open => (Ret.int (self.Open ARCHIVE_OK).1, (self.Open ARCHIVE_OK).2)
  | .Read n buf =>
      (Ret.ssize_t (self.Read n buf).1.returned (self.Read n buf).1.destination_buffer,
        (self.Read n buf).2)
  | .Skip n => (Ret.int64_t (self.Skip n).1, (self.Skip n).2)
  | .Seek x whence => (Ret.int64_t (self.Seek x whence).1, (self.Seek x whence).2)
  | .GetOffset => (Ret.int64_t self.GetOffset, self)
  | .Close => (Ret.int (self.Close ARCHIVE_OK).1, (self.Close ARCHIVE_OK).2)

/-- Perform a sequence of calls in order, collecting the results. -/
def run (ARCHIVE_OK : Int) : FakeVolumeReader → List Call → List Ret × FakeVolumeReader
  | self, [] => ([], self)
  | self, c :: cs =>
      ((step ARCHIVE_OK self c).1 :: (run ARCHIVE_OK (step ARCHIVE_OK self c).2 cs).1,
        (run ARCHIVE_OK (step ARCHIVE_OK self c).2 cs).2)

/-- The object reached from a freshly constructed reader by a sequence of calls. -/
def stateAfter (ARCHIVE_OK : Int) (calls : List Call) : FakeVolumeReader :=
  (run ARCHIVE_OK {} calls).2

/-- The result of call `c` when it is made right after the calls `before` on a
freshly constructed reader. -/
def resultAfter (ARCHIVE_OK : Int) (before : List Call) (c : Call) : Ret :=
  (step ARCHIVE_OK (stateAfter ARCHIVE_OK before) c).1

/-! ## Lifecycle of the interface contract -/

/-- The lifecycle states of the volume-reader contract. -/
inductive Lifecycle where
  | Uninitialized
  | Open
  | Closed
  deriving DecidableEq, Repr

/-- Lifecycle transition as the contract words it, `Uninitialized → Open → Closed`
with `Closed` terminal: `Open` takes an uninitialized reader to `Open`, `Close`
takes an open reader to `Closed`, and no other call moves the lifecycle.  This
is the contract's state machine, not something the fake reader stores. -/
def specLifecycleStep : Lifecycle → Call → Lifecycle
  | .Uninitialized, .Open => .Open
  | .Open, .Close => .Closed
  | l, _ => l

/-- The contract's lifecycle state after a sequence of calls on a fresh reader. -/
def specLifecycle (calls : List Call) : Lifecycle :=
  calls.foldl specLifecycleStep .Uninitialized

/-- The calls the contract allows in the `Open` state only. -/
def Call.needsOpen : Call → Bool
  | .Read _ _ => true
  | .Skip _ => true
  | .Seek _ _ => true
  | .GetOffset => true
  | .Open => false
  | .Close => false

/-! ## Inserting `GetOffset` calls into a sequence -/

/-- An element of a call sequence into which extra `GetOffset` calls were
inserted: a call of the original sequence, or an inserted `GetOffset`. -/
inductive Item where
  | original (c : Call)
  | insertedGetOffset
  deriving DecidableEq, Repr

/-- The sequence with the inserted `GetOffset` calls in place. -/
def withInsertions : List Item → List Call
  | [] => []
  | .original c :: items => c :: withInsertions items
  | .insertedGetOffset :: items => Call.GetOffset :: withInsertions items

/-- The original sequence, inserted calls left out. -/
def withoutInsertions : List Item → List Call
  | [] => []
  | .original c :: items => c :: withoutInsertions items
  | .insertedGetOffset :: items => withoutInsertions items

/-- From the results of the sequence with insertions, keep the results of the
original calls. -/
def originalResults : List Item → List Ret → List Ret
  | .original _ :: items, r :: rs => r :: originalResults items rs
  | .insertedGetOffset :: items, _ :: rs => originalResults items rs
  | _, _ => []

/-! ## Helper lemmas -/

theorem step_GetOffset (ARCHIVE_OK : Int) (self : FakeVolumeReader) :
    step ARCHIVE_OK self Call.GetOffset = (Ret.int64_t self.GetOffset, self) := rfl

theorem run_cons (ARCHIVE_OK : Int) (self : FakeVolumeReader) (c : Call) (cs : List Call) :
    run ARCHIVE_OK self (c :: cs) =
      ((step ARCHIVE_OK self c).1 :: (run ARCHIVE_OK (step ARCHIVE_OK self c).2 cs).1,
        (run ARCHIVE_OK (step ARCHIVE_OK self c).2 cs).2) := rfl

/-- The offset reported in any object is within `[0, 0]`. -/
theorem GetOffset_range (self : FakeVolumeReader) :
    0 ≤ self.GetOffset ∧ self.GetOffset ≤ 0 := by
  simp [FakeVolumeReader.GetOffset]

/-- Running a sequence with inserted `GetOffset` calls: the results at the
original positions and the final object are those of the sequence without the
insertions. -/
theorem run_insertions (ARCHIVE_OK : Int) (items : List Item) :
    ∀ self : FakeVolumeReader,
      originalResults items (run ARCHIVE_OK self (withInsertions items)).1 =
        (run ARCHIVE_OK self (withoutInsertions items)).1 ∧
      (run ARCHIVE_OK self (withInsertions items)).2 =
        (run ARCHIVE_OK self (withoutInsertions items)).2 := by
  induction items with
  | nil => intro self; exact ⟨rfl, rfl⟩
  | cons item rest ih =>
    intro self
    cases item with
    | original c =>
      have h := ih (step ARCHIVE_OK self c).2
      refine ⟨?_, h.2⟩
      show (step ARCHIVE_OK self c).1 ::
          originalResults rest (run ARCHIVE_OK (step ARCHIVE_OK self c).2 (withInsertions rest)).1 =
        (step ARCHIVE_OK self c).1 ::
          (run ARCHIVE_OK (step ARCHIVE_OK self c).2 (withoutInsertions rest)).1
      rw [h.1]
    | insertedGetOffset =>
      have h := ih (step ARCHIVE_OK self Call.GetOffset).2
      rw [step_GetOffset] at h
      exact h

/-! ## The claims -/

/-- C1: in every state reached by a sequence of calls, for every `bytes_to_read`,
every prior buffer slot content, every `bytes_to_skip`, every seek offset and
every `whence`: `Open()` returns `ARCHIVE_OK`, `Read` returns 0, `Skip` returns 0,
`Seek` returns 0, `GetOffset()` returns 0 and `Close()` returns `ARCHIVE_OK`;
and the six calls made in that order on a fresh reader give those results. -/
theorem C1_fake_reader_results (ARCHIVE_OK : Int) (calls : List Call)
    (bytes_to_read : Nat) (buf : ConstVoidPtr) (bytes_to_skip x whence : Int) :
    ((stateAfter ARCHIVE_OK calls).Open ARCHIVE_OK).1 = ARCHIVE_OK ∧
    ((stateAfter ARCHIVE_OK calls).Read bytes_to_read buf).1.returned = 0 ∧
    ((stateAfter ARCHIVE_OK calls).Skip bytes_to_skip).1 = 0 ∧
    ((stateAfter ARCHIVE_OK calls).Seek x whence).1 = 0 ∧
    (stateAfter ARCHIVE_OK calls).GetOffset = 0 ∧
    ((stateAfter ARCHIVE_OK calls).Close ARCHIVE_OK).1 = ARCHIVE_OK ∧
    (run ARCHIVE_OK {}
        [Call.Open, Call.Read bytes_to_read buf, Call.Skip bytes_to_skip, Call.Seek x whence,
          Call.GetOffset, Call.Close]).1 =
      [Ret.int ARCHIVE_OK, Ret.ssize_t 0 buf, Ret.int64_t 0, Ret.int64_t 0, Ret.int64_t 0,
        Ret.int ARCHIVE_OK] :=
  ⟨rfl, rfl, rfl, rfl, rfl, rfl, rfl⟩

/-- C2: for every `bytes_to_read > 0` and every state reached by a sequence of
calls, `Read(bytes_to_read)` returns a count `c` with `0 ≤ c ≤ bytes_to_read`,
and `GetOffset()` after the read equals `GetOffset()` before it plus `c`. -/
theorem C2_read_count_and_offset (ARCHIVE_OK : Int) (calls : List Call)
    (bytes_to_read : Nat) (buf : ConstVoidPtr) (_h : 0 < bytes_to_read) :
    0 ≤ ((stateAfter ARCHIVE_OK calls).Read bytes_to_read buf).1.returned ∧
    ((stateAfter ARCHIVE_OK calls).Read bytes_to_read buf).1.returned ≤ (bytes_to_read : Int) ∧
    ((stateAfter ARCHIVE_OK calls).Read bytes_to_read buf).2.GetOffset =
      (stateAfter ARCHIVE_OK calls).GetOffset +
        ((stateAfter ARCHIVE_OK calls).Read bytes_to_read buf).1.returned := by
  refine ⟨?_, ?_, ?_⟩
  · simp [FakeVolumeReader.Read]
  · simp [FakeVolumeReader.Read]
  · simp [FakeVolumeReader.Read, FakeVolumeReader.GetOffset]

/-- Witness of C2: a `Read(5)` made after `Open()` and `Skip(3)`. -/
theorem C2_read_count_and_offset_witness :
    0 < 5 ∧
    0 ≤ ((stateAfter 0 [Call.Open, Call.Skip 3]).Read 5 none).1.returned ∧
    ((stateAfter 0 [Call.Open, Call.Skip 3]).Read 5 none).1.returned ≤ ((5 : Nat) : Int) ∧
    ((stateAfter 0 [Call.Open, Call.Skip 3]).Read 5 none).2.GetOffset =
      (stateAfter 0 [Call.Open, Call.Skip 3]).GetOffset +
        ((stateAfter 0 [Call.Open, Call.Skip 3]).Read 5 none).1.returned :=
  ⟨by decide, C2_read_count_and_offset 0 [Call.Open, Call.Skip 3] 5 none (by decide)⟩

/-- C3: for every `n ≥ 0` and every state reached by a sequence of calls,
`Skip(n)` returns `actualSkipped ≤ n`, and `GetOffset()` after the skip equals
`GetOffset()` before it plus `actualSkipped`. -/
theorem C3_skip_count_and_offset (ARCHIVE_OK : Int) (calls : List Call)
    (n : Int) (h : 0 ≤ n) :
    ((stateAfter ARCHIVE_OK calls).Skip n).1 ≤ n ∧
    ((stateAfter ARCHIVE_OK calls).Skip n).2.GetOffset =
      (stateAfter ARCHIVE_OK calls).GetOffset + ((stateAfter ARCHIVE_OK calls).Skip n).1 := by
  refine ⟨?_, ?_⟩
  · simpa [FakeVolumeReader.Skip] using h
  · simp [FakeVolumeReader.Skip, FakeVolumeReader.GetOffset]

/-- Witness of C3: a `Skip(7)` made after `Open()`. -/
theorem C3_skip_count_and_offset_witness :
    (0 : Int) ≤ 7 ∧
    ((stateAfter 0 [Call.Open]).Skip 7).1 ≤ 7 ∧
    ((stateAfter 0 [Call.Open]).Skip 7).2.GetOffset =
      (stateAfter 0 [Call.Open]).GetOffset + ((stateAfter 0 [Call.Open]).Skip 7).1 :=
  ⟨by decide, C3_skip_count_and_offset 0 [Call.Open] 7 (by decide)⟩

/-- C4: for every `x` in the valid range of the zero-length source, `0 ≤ x ≤ 0`,
and every state reached by a sequence of calls, `Seek(x, SEEK_SET)` returns `x`
and a following `GetOffset()` yields `x`. -/
theorem C4_seek_absolute_in_range (ARCHIVE_OK : Int) (calls : List Call)
    (x : Int) (h0 : 0 ≤ x) (h1 : x ≤ 0) :
    ((stateAfter ARCHIVE_OK calls).Seek x SEEK_SET).1 = x ∧
    ((stateAfter ARCHIVE_OK calls).Seek x SEEK_SET).2.GetOffset = x := by
  have hx : x = 0 := le_antisymm h1 h0
  subst hx
  exact ⟨rfl, rfl⟩

/-- Witness of C4: `Seek(0, SEEK_SET)` made after `Open()`. -/
theorem C4_seek_absolute_in_range_witness :
    (0 : Int) ≤ 0 ∧ (0 : Int) ≤ 0 ∧
    ((stateAfter 0 [Call.Open]).Seek 0 SEEK_SET).1 = 0 ∧
    ((stateAfter 0 [Call.Open]).Seek 0 SEEK_SET).2.GetOffset = 0 :=
  ⟨by decide, by decide, C4_seek_absolute_in_range 0 [Call.Open] 0 (by decide) (by decide)⟩

/-- C5 fails as stated: after `Open()`, `Seek(-1, SEEK_SET)` returns 0, which is
not a negative value. -/
theorem C5_counterexample :
    ((stateAfter 0 [Call.Open]).Seek (-1) SEEK_SET).1 = 0 ∧
    ¬ ((stateAfter 0 [Call.Open]).Seek (-1) SEEK_SET).1 < 0 := by
  constructor
  · rfl
  · simp [FakeVolumeReader.Seek]

/-- C5, amended: for every `x < 0` and every state reached by a sequence of
calls, `Seek(x, SEEK_SET)` returns 0, a value that is not negative, and a
following `GetOffset()` yields 0. -/
theorem C5_seek_negative_returns_zero (ARCHIVE_OK : Int) (calls : List Call)
    (x : Int) (_h : x < 0) :
    ((stateAfter ARCHIVE_OK calls).Seek x SEEK_SET).1 = 0 ∧
    ¬ ((stateAfter ARCHIVE_OK calls).Seek x SEEK_SET).1 < 0 ∧
    ((stateAfter ARCHIVE_OK calls).Seek x SEEK_SET).2.GetOffset = 0 := by
  refine ⟨rfl, ?_, rfl⟩
  simp [FakeVolumeReader.Seek]

/-- Witness of amended C5: `Seek(-4, SEEK_SET)` made after `Open()`. -/
theorem C5_seek_negative_returns_zero_witness :
    (-4 : Int) < 0 ∧
    ((stateAfter 0 [Call.Open]).Seek (-4) SEEK_SET).1 = 0 ∧
    ¬ ((stateAfter 0 [Call.Open]).Seek (-4) SEEK_SET).1 < 0 ∧
    ((stateAfter 0 [Call.Open]).Seek (-4) SEEK_SET).2.GetOffset = 0 :=
  ⟨by decide, C5_seek_negative_returns_zero 0 [Call.Open] (-4) (by decide)⟩

/-- C6 fails as stated: `Read(1)`, `Skip(1)`, `Seek(1, SEEK_SET)` and
`GetOffset()` made before any `Open()` (lifecycle `Uninitialized`), and the same
calls made after `Open()`, `Close()` (lifecycle `Closed`), each give exactly the
result the same call gives right after `Open()` (lifecycle `Open`). -/
theorem C6_counterexample :
    specLifecycle [] = Lifecycle.Uninitialized ∧
    specLifecycle [Call.Open, Call.Close] = Lifecycle.Closed ∧
    specLifecycle [Call.Open] = Lifecycle.Open ∧
    resultAfter 0 [] (Call.Read 1 none) = resultAfter 0 [Call.Open] (Call.Read 1 none) ∧
    resultAfter 0 [] (Call.Skip 1) = resultAfter 0 [Call.Open] (Call.Skip 1) ∧
    resultAfter 0 [] (Call.Seek 1 SEEK_SET) = resultAfter 0 [Call.Open] (Call.Seek 1 SEEK_SET) ∧
    resultAfter 0 [] Call.GetOffset = resultAfter 0 [Call.Open] Call.GetOffset ∧
    resultAfter 0 [Call.Open, Call.Close] (Call.Read 1 none) =
      resultAfter 0 [Call.Open] (Call.Read 1 none) ∧
    resultAfter 0 [Call.Open, Call.Close] (Call.Skip 1) =
      resultAfter 0 [Call.Open] (Call.Skip 1) ∧
    resultAfter 0 [Call.Open, Call.Close] (Call.Seek 1 SEEK_SET) =
      resultAfter 0 [Call.Open] (Call.Seek 1 SEEK_SET) ∧
    resultAfter 0 [Call.Open, Call.Close] Call.GetOffset =
      resultAfter 0 [Call.Open] Call.GetOffset :=
  ⟨rfl, rfl, rfl, rfl, rfl, rfl, rfl, rfl, rfl, rfl, rfl⟩

/-- C6, amended: for every sequence of calls in which `Read`, `Skip`, `Seek` or
`GetOffset` is made outside the `Open` lifecycle state (before `Open()` or
after `Close()`), that call reports no error: it gives the same result as the
same call made in the `Open` state, and the number it returns is 0. -/
theorem C6_no_protocol_violation (ARCHIVE_OK : Int) (before inOpen : List Call) (c : Call)
    (hc : c.needsOpen = true) (_hb : specLifecycle before ≠ Lifecycle.Open)
    (_ho : specLifecycle inOpen = Lifecycle.Open) :
    resultAfter ARCHIVE_OK before c = resultAfter ARCHIVE_OK inOpen c ∧
    (resultAfter ARCHIVE_OK before c = Ret.int64_t 0 ∨
      ∃ buf, resultAfter ARCHIVE_OK before c = Ret.ssize_t 0 buf) := by
  cases c with
  | Open => simp [Call.needsOpen] at hc
  | Close => simp [Call.needsOpen] at hc
  | Read n buf => exact ⟨rfl, Or.inr ⟨buf, rfl⟩⟩
  | Skip n => exact ⟨rfl, Or.inl rfl⟩
  | Seek x whence => exact ⟨rfl, Or.inl rfl⟩
  | GetOffset => exact ⟨rfl, Or.inl rfl⟩

/-- Witness of amended C6: a `Skip(2)` made after `Open()`, `Close()`, compared
with the same call made after `Open()`. -/
theorem C6_no_protocol_violation_witness :
    (Call.Skip 2).needsOpen = true ∧
    specLifecycle [Call.Open, Call.Close] ≠ Lifecycle.Open ∧
    specLifecycle [Call.Open] = Lifecycle.Open ∧
    resultAfter 0 [Call.Open, Call.Close] (Call.Skip 2) =
      resultAfter 0 [Call.Open] (Call.Skip 2) ∧
    (resultAfter 0 [Call.Open, Call.Close] (Call.Skip 2) = Ret.int64_t 0 ∨
      ∃ buf, resultAfter 0 [Call.Open, Call.Close] (Call.Skip 2) = Ret.ssize_t 0 buf) :=
  ⟨rfl, by decide, rfl,
    C6_no_protocol_violation 0 [Call.Open, Call.Close] [Call.Open] (Call.Skip 2)
      rfl (by decide) rfl⟩

/-- C7 fails as stated: when the caller's slot holds the non-null address 4096
before `Read(5)`, the read returns 0 and the slot still holds 4096, not null. -/
theorem C7_counterexample :
    ((stateAfter 0 [Call.Open]).Read 5 (some 4096)).1.returned = 0 ∧
    ((stateAfter 0 [Call.Open]).Read 5 (some 4096)).1.destination_buffer = some 4096 ∧
    ((stateAfter 0 [Call.Open]).Read 5 (some 4096)).1.destination_buffer ≠ none := by
  refine ⟨rfl, rfl, ?_⟩
  simp [FakeVolumeReader.Read]

/-- C7, amended: for every `bytes_to_read`, every prior content of the caller's
slot and every state reached by a sequence of calls, `Read` returns 0 and the
slot holds after the call what it held before; so it is null after the call
exactly when it was null before. -/
theorem C7_read_leaves_buffer_slot (ARCHIVE_OK : Int) (calls : List Call)
    (bytes_to_read : Nat) (buf : ConstVoidPtr) :
    ((stateAfter ARCHIVE_OK calls).Read bytes_to_read buf).1.returned = 0 ∧
    ((stateAfter ARCHIVE_OK calls).Read bytes_to_read buf).1.destination_buffer = buf ∧
    (((stateAfter ARCHIVE_OK calls).Read bytes_to_read buf).1.destination_buffer = none ↔
      buf = none) :=
  ⟨rfl, rfl, Iff.rfl⟩

/-- C8: for every `n1, n2 > 0` and every state reached by a sequence of calls,
if `Read(n1)` returns 0 then an immediately following `Read(n2)` returns 0 too,
and `GetOffset()` is the same before the first read, between the two reads and
after the second. -/
theorem C8_end_of_stream_stable (ARCHIVE_OK : Int) (calls : List Call)
    (n1 n2 : Nat) (buf1 buf2 : ConstVoidPtr) (_h1 : 0 < n1) (_h2 : 0 < n2)
    (_hr : ((stateAfter ARCHIVE_OK calls).Read n1 buf1).1.returned = 0) :
    ((((stateAfter ARCHIVE_OK calls).Read n1 buf1).2).Read n2 buf2).1.returned = 0 ∧
    ((stateAfter ARCHIVE_OK calls).Read n1 buf1).2.GetOffset =
      (stateAfter ARCHIVE_OK calls).GetOffset ∧
    ((((stateAfter ARCHIVE_OK calls).Read n1 buf1).2).Read n2 buf2).2.GetOffset =
      ((stateAfter ARCHIVE_OK calls).Read n1 buf1).2.GetOffset :=
  ⟨rfl, rfl, rfl⟩

/-- Witness of C8: `Read(4)` then `Read(9)` after `Open()`. -/
theorem C8_end_of_stream_stable_witness :
    0 < 4 ∧ 0 < 9 ∧
    ((stateAfter 0 [Call.Open]).Read 4 none).1.returned = 0 ∧
    ((((stateAfter 0 [Call.Open]).Read 4 none).2).Read 9 none).1.returned = 0 ∧
    ((stateAfter 0 [Call.Open]).Read 4 none).2.GetOffset =
      (stateAfter 0 [Call.Open]).GetOffset ∧
    ((((stateAfter 0 [Call.Open]).Read 4 none).2).Read 9 none).2.GetOffset =
      ((stateAfter 0 [Call.Open]).Read 4 none).2.GetOffset :=
  ⟨by decide, by decide, rfl,
    C8_end_of_stream_stable 0 [Call.Open] 4 9 none none (by decide) (by decide) rfl⟩

/-- C9: after every finite sequence of `Open`, `Read`, `Skip`, `Seek`,
`GetOffset` and `Close` calls with arbitrary arguments, `GetOffset()` is
non-negative and at most 0, the size of the fake reader's byte source; and a
`GetOffset` call made then returns such a value. -/
theorem C9_offset_invariant (ARCHIVE_OK : Int) (calls : List Call) :
    0 ≤ (stateAfter ARCHIVE_OK calls).GetOffset ∧
    (stateAfter ARCHIVE_OK calls).GetOffset ≤ 0 ∧
    ∃ v, resultAfter ARCHIVE_OK calls Call.GetOffset = Ret.int64_t v ∧ 0 ≤ v ∧ v ≤ 0 :=
  ⟨(GetOffset_range _).1, (GetOffset_range _).2,
    ⟨(stateAfter ARCHIVE_OK calls).GetOffset, rfl, GetOffset_range _⟩⟩

/-- C10: `GetOffset()` is a pure query.  From every object, running a call
sequence with any number of `GetOffset()` calls inserted at any points gives,
for the original calls, the same results as running the sequence without the
insertions, and ends in the same object; a `GetOffset()` call leaves the object
as it was; and two consecutive `GetOffset()` calls return the same value. -/
theorem C10_GetOffset_pure (ARCHIVE_OK : Int) (self : FakeVolumeReader) (items : List Item) :
    originalResults items (run ARCHIVE_OK self (withInsertions items)).1 =
      (run ARCHIVE_OK self (withoutInsertions items)).1 ∧
    (run ARCHIVE_OK self (withInsertions items)).2 =
      (run ARCHIVE_OK self (withoutInsertions items)).2 ∧
    (step ARCHIVE_OK self Call.GetOffset).2 = self ∧
    (step ARCHIVE_OK (step ARCHIVE_OK self Call.GetOffset).2 Call.GetOffset).1 =
      (step ARCHIVE_OK self Call.GetOffset).1 := by
  refine ⟨?_, ?_, rfl, rfl⟩
  · exact (run_insertions ARCHIVE_OK items self).1
  · exact (run_insertions ARCHIVE_OK items self).2

end VolumeReader
